import Mathlib

/-!
Shallow embedding of `pylearn2/space/__init__.py`: the `Space` descriptor
hierarchy (`VectorSpace`, `Conv2DSpace`, `CompositeSpace`, `NullSpace`) and
its batch formatting operations.  Batches model the concrete values carried
by the numpy arrays / theano variables of the source: a `VectorSpace` batch
is a 2-d matrix (list of rows), a `Conv2DSpace` batch is a 4-d array, a
`CompositeSpace` batch is a tuple and a `NullSpace` batch is the `None`
placeholder.  Python exceptions become `Except` errors.
-/

/-- An axis tag of a `Conv2DSpace`: the source uses the Python values
`'b'` (batch), `'c'` (channel), `0` (rows) and `1` (columns). -/
inductive Axis where
  | b : Axis
  | c : Axis
  | i0 : Axis
  | i1 : Axis
deriving DecidableEq, Repr, Fintype

/-- A space descriptor.  `vector` carries `dim` (stored unvalidated, as in
`VectorSpace.__init__`, hence `Int`) and the `sparse` flag; `conv2d` carries
the two image shape entries, the channel count and the axes list;
`composite` carries the component list; `null` is `NullSpace`. -/
inductive Space where
  | vector (dim : Int) (sparse : Bool) : Space
  | conv2d (sh0 sh1 : Nat) (num_channels : Nat) (axes : List Axis) : Space
  | composite (components : List Space) : Space
  | null : Space

/-- A 4-d array: `shape` is the list of the four extents, `data` maps an
index (one coordinate per axis position) to the stored element.  This models
a numpy `ndarray` with `ndim == 4`. -/
@[ext]
structure Arr4 (α : Type) where
  shape : List Nat
  data : (Fin 4 → Nat) → α

/-- A concrete batch value: 2-d matrix (list of rows), 4-d array, tuple, or
the `None` placeholder used by `NullSpace`. -/
inductive NpBatch (α : Type) where
  | mat : List (List α) → NpBatch α
  | arr : Arr4 α → NpBatch α
  | tup : List (NpBatch α) → NpBatch α
  | null : NpBatch α

/-- The dictionary `{ 'b' : n, 0 : h, 1 : w, 'c' : c }` used throughout
`Conv2DSpace` to look up the extent of each axis tag. -/
def axisDim (n h w c : Nat) : Axis → Nat
  | .b => n
  | .i0 => h
  | .i1 => w
  | .c => c

/-- numpy `tensor.transpose(*p)` on a 4-d array, `p` a permutation of
`[0,1,2,3]`: output axis `k` is input axis `p[k]`, so the output shape is
`p` mapped over the input shape, and reading the output at index `i`
reads the input at the index `j` with `j[p[k]] = i[k]`, i.e.
`j[m] = i[p.indexOf m]`.  theano's `dimshuffle(*p)` has the same semantics
for a permutation `p`. -/
def npTranspose {α : Type} (a : Arr4 α) (p : List Nat) : Arr4 α where
  shape := p.map (fun k => a.shape.getD k 0)
  data := fun idx => a.data (fun m => idx ⟨p.indexOf m.val % 4, Nat.mod_lt _ (by norm_num)⟩)

/-- `batch[:, pos:pos+width]` on a 2-d matrix stored as a list of rows
(for non-negative `pos` and `width`, the case exercised by the source). -/
def sliceCols {α : Type} (batch : List (List α)) (pos width : Int) : List (List α) :=
  batch.map (fun r => (r.drop pos.toNat).take width.toNat)

/-- `np.concatenate(pieces, axis=1)` / `T.concatenate(pieces, axis=1)` on
2-d matrices stored as lists of rows, all with the same row count. -/
def concatCols {α : Type} : List (List (List α)) → List (List α)
  | [] => []
  | m :: rest => rest.foldl (fun acc x => List.zipWith (· ++ ·) acc x) m

/-- Row-major offset of index `idx` in a 4-d array of shape `s`. -/
def rowMajor (s : List Nat) (idx : Fin 4 → Nat) : Nat :=
  ((idx 0 * s.getD 1 0 + idx 1) * s.getD 2 0 + idx 2) * s.getD 3 0 + idx 3

/-- numpy `reshape` of a 2-d matrix (list of rows) into a 4-d array of
shape `s` (row-major / C order). -/
def matToArr4 {α : Type} [Inhabited α] (m : List (List α)) (s : List Nat) : Arr4 α where
  shape := s
  data := fun idx => (m.flatten).getD (rowMajor s idx) default

/-- Build the index function of a 4-d array from four coordinates. -/
def mkIdx (i j k l : Nat) : Fin 4 → Nat :=
  fun m => [i, j, k, l].getD m.val 0

/-- numpy `reshape((shape[0], -1))` of a 4-d array: row `i` is the row-major
flattening of the sub-array at first coordinate `i`. -/
def Arr4.toFlatRows {α : Type} (a : Arr4 α) : List (List α) :=
  (List.range (a.shape.getD 0 0)).map fun i =>
    (List.range (a.shape.getD 1 0)).flatMap fun j =>
      (List.range (a.shape.getD 2 0)).flatMap fun k =>
        (List.range (a.shape.getD 3 0)).map fun l =>
          a.data (mkIdx i j k l)

/-- Errors of the embedding, modelling the Python exceptions raised by the
source: `typeError`/`valueError` from `validate` and type checks,
`incompatibleDims` is the `ValueError` of `Space.format_as` whose message
names both total dimensions (carried here as payload), `notImplemented` is
`NotImplementedError`, `assertionError` a failed `assert`. -/
inductive FmtError where
  | typeError : FmtError
  | valueError : FmtError
  | incompatibleDims (d1 d2 : Int) : FmtError
  | notImplemented : FmtError
  | assertionError : FmtError
deriving DecidableEq, Repr

mutual
/-- `Space.get_total_dimension` per subclass: `VectorSpace` returns `dim`,
`Conv2DSpace` returns `shape[0]*shape[1]*num_channels`, `CompositeSpace`
sums its components, and `NullSpace` (which does not override the base
method) raises `NotImplementedError`. -/
def get_total_dimension : Space → Except FmtError Int
  | .vector d _ => .ok d
  | .conv2d h w c _ => .ok ((h * w * c : Nat) : Int)
  | .composite comps => getTotalDimList comps
  | .null => .error .notImplemented

/-- `sum([component.get_total_dimension() for component in self.components])`. -/
def getTotalDimList : List Space → Except FmtError Int
  | [] => .ok 0
  | s :: rest =>
    match get_total_dimension s with
    | .error e => .error e
    | .ok d =>
      match getTotalDimList rest with
      | .error e => .error e
      | .ok ds => .ok (d + ds)
end

mutual
/-- `__eq__` per subclass: `VectorSpace` compares type and `dim` only
(`sparse` is not compared), `Conv2DSpace` compares `shape`, `num_channels`
and `axes`, `CompositeSpace` compares lengths and then components pairwise,
`NullSpace` compares type only; different variants are never equal. -/
def spaceEq : Space → Space → Bool
  | .vector d1 _, .vector d2 _ => d1 == d2
  | .conv2d h1 w1 c1 ax1, .conv2d h2 w2 c2 ax2 =>
      h1 == h2 && w1 == w2 && c1 == c2 && ax1 == ax2
  | .composite cs1, .composite cs2 => cs1.length == cs2.length && spaceEqList cs1 cs2
  | .null, .null => true
  | _, _ => false

/-- `all([a == b for a, b in zip(self.components, other.components)])`;
like `zip` it truncates at the shorter list (the caller checks lengths). -/
def spaceEqList : List Space → List Space → Bool
  | s1 :: r1, s2 :: r2 => spaceEq s1 s2 && spaceEqList r1 r2
  | _, _ => true
end

mutual
/-- `validate` per subclass, on concrete batch values: `VectorSpace`
requires a 2-d matrix, `Conv2DSpace` a 4-d array, `CompositeSpace` a tuple
of the right length whose elements validate componentwise, `NullSpace`
accepts only the `None` placeholder.  (The theano-level type checks of the
source are satisfied by construction in this embedding.) -/
def validateB {α : Type} : Space → NpBatch α → Bool
  | .vector _ _, .mat _ => true
  | .vector _ _, _ => false
  | .conv2d _ _ _ _, .arr _ => true
  | .conv2d _ _ _ _, _ => false
  | .composite comps, .tup bs => comps.length == bs.length && validateBList comps bs
  | .composite _, _ => false
  | .null, .null => true
  | .null, _ => false

/-- Componentwise validation over `zip(batch, self.components)`. -/
def validateBList {α : Type} : List Space → List (NpBatch α) → Bool
  | s :: r, b :: bs => validateB s b && validateBList r bs
  | _, _ => true
end

namespace VectorSpace

/-- `VectorSpace.__init__(self, dim, sparse=False)`: the source simply stores
`self.dim = dim` and `self.sparse = sparse`, performing no validation of
`dim` whatsoever. -/
def init (dim : Int) (sparse : Bool) : Space :=
  .vector dim sparse

end VectorSpace

/-- The default axes `('b', 0, 1, 'c')` of `Conv2DSpace.__init__`. -/
def defaultAxes : List Axis := [.b, .i0, .i1, .c]

namespace Conv2DSpace

/-- `Conv2DSpace.__init__(self, shape, channels=None, num_channels=None,
axes=None)`: exactly one of `channels`/`num_channels` must be given
(`assert (channels is None) + (num_channels is None) == 1`); `shape` must
have length 2 (`ValueError`), with positive entries (`assert`);
`num_channels` must be positive (`assert`); `axes` defaults to
`('b', 0, 1, 'c')` and is only checked to have length 4 (`assert`).
A failed check yields `none`. -/
def init (shape : List Int) (channels num_channels : Option Int)
    (axes : Option (List Axis)) : Option Space :=
  if channels.isNone = num_channels.isNone then none
  else
    let nc : Int := num_channels.getD (channels.getD 0)
    if shape.length ≠ 2 then none
    else if ¬ shape.all (fun e => 0 < e) then none
    else if nc ≤ 0 then none
    else
      let ax := axes.getD defaultAxes
      if ax.length ≠ 4 then none
      else some (.conv2d (shape.getD 0 0).toNat (shape.getD 1 0).toNat nc.toNat ax)

/-- `Conv2DSpace.convert(tensor, src_axes, dst_axes)` (theano `dimshuffle`):
if the axes agree, the tensor itself; otherwise one `dimshuffle` whose
permutation vector is `[src_axes.index(elem) for elem in dst_axes]`. -/
def convert {α : Type} (tensor : Arr4 α) (src_axes dst_axes : List Axis) : Arr4 α :=
  if src_axes = dst_axes then tensor
  else npTranspose tensor (dst_axes.map (fun elem => src_axes.indexOf elem))

/-- `Conv2DSpace.convert_numpy(tensor, src_axes, dst_axes)` (numpy
`transpose`): if the axes agree, the tensor itself; otherwise one transpose
whose permutation vector is `[src_axes.index(elem) for elem in dst_axes]`. -/
def convert_numpy {α : Type} (tensor : Arr4 α) (src_axes dst_axes : List Axis) : Arr4 α :=
  if src_axes = dst_axes then tensor
  else npTranspose tensor (dst_axes.map (fun elem => src_axes.indexOf elem))

/-- `Conv2DSpace.np_format_as(self, batch, space)`: into a `VectorSpace`,
transpose batch-first when `self.axes[0] != 'b'` and reshape to
`(batch.shape[0], total_dimension)`; into a `Conv2DSpace`, defer to
`convert_numpy`; anything else raises `NotImplementedError`. -/
def np_format_as {α : Type} (sh0 sh1 nc : Nat) (axes : List Axis)
    (batch : Arr4 α) (space : Space) : Except FmtError (NpBatch α) :=
  match space with
  | .vector _ _ =>
    let batch2 :=
      if axes.getD 0 Axis.b ≠ Axis.b then
        npTranspose batch
          ((Axis.b :: axes.filter (fun a => a ≠ Axis.b)).map (fun a => axes.indexOf a))
      else batch
    .ok (.mat batch2.toFlatRows)
  | .conv2d _ _ _ ax2 => .ok (.arr (convert_numpy batch axes ax2))
  | _ => .error .notImplemented

/-- `Conv2DSpace.get_origin_batch(self, n)`: `n` must be a Python integer
(`TypeError` otherwise, modelled by the `Option Int` argument being `none`),
must be positive (`assert`), and the result is `np.zeros` with shape
`[dims[elem] for elem in self.axes]` for
`dims = {'b': n, 0: shape[0], 1: shape[1], 'c': num_channels}`. -/
def get_origin_batch (sh0 sh1 nc : Nat) (axes : List Axis) (n : Option Int) :
    Except FmtError (Arr4 Int) :=
  match n with
  | none => .error .typeError
  | some m =>
    if m ≤ 0 then .error .assertionError
    else .ok { shape := axes.map (axisDim m.toNat sh0 sh1 nc), data := fun _ => 0 }

/-- `Conv2DSpace.get_batch_size(self, data)`: validates the batch, then
returns `data.shape[self.axes.index('b')]`. -/
def get_batch_size {α : Type} (sh0 sh1 nc : Nat) (axes : List Axis)
    (data : Arr4 α) : Nat :=
  data.shape.getD (axes.indexOf Axis.b) 0

end Conv2DSpace

namespace CompositeSpace

/-- `[self.components[i] for i in subset]`: the selected components in the
order given by `subset`; `none` models the `IndexError` of an out-of-range
index. -/
def pickComponents (components : List Space) : List Nat → Option (List Space)
  | [] => some []
  | i :: rest =>
    match components.get? i with
    | none => none
    | some s =>
      match pickComponents components rest with
      | none => none
      | some l => some (s :: l)

/-- `CompositeSpace.restrict(self, subset)`: when `subset` has exactly one
index, return that component directly; otherwise return a `CompositeSpace`
of the selected components in the order given by `subset`. -/
def restrict (components : List Space) (subset : List Nat) : Option Space :=
  if subset.length = 1 then components.get? (subset.getD 0 0)
  else
    match pickComponents components subset with
    | none => none
    | some picked => some (.composite picked)

end CompositeSpace

namespace NullSpace

/-- `NullSpace.np_format_as(self, batch, space)`:
`assert isinstance(space, NullSpace)`, `assert batch is None`, return
`None`. -/
def np_format_as {α : Type} (batch : NpBatch α) (space : Space) :
    Except FmtError (NpBatch α) :=
  match space with
  | .null =>
    match batch with
    | .null => .ok .null
    | _ => .error .assertionError
  | _ => .error .assertionError

end NullSpace

/-- The body of `Space.format_as(self, batch, space)` shared by every
subclass: `self.validate(batch)`, fetch `my_dimension` and
`other_dimension` (either fetch may raise — `NullSpace` has no
`get_total_dimension`), raise the `ValueError` naming both totals when they
differ, return the batch unchanged when `self == space`, and otherwise
defer to the subclass `_format_as` (the `cont` argument). -/
def formatWrapper {α : Type} (src dst : Space) (batch : NpBatch α)
    (cont : Except FmtError (NpBatch α)) : Except FmtError (NpBatch α) :=
  if ¬ validateB src batch then .error .typeError
  else
    match get_total_dimension src with
    | .error e => .error e
    | .ok d1 =>
      match get_total_dimension dst with
      | .error e => .error e
      | .ok d2 =>
        if d1 ≠ d2 then .error (.incompatibleDims d1 d2)
        else if spaceEq src dst then .ok batch
        else cont

mutual
/-- `Space.format_as(self, batch, space)` for `self = VectorSpace(dim,
sparse)`: the shared wrapper followed by `VectorSpace._format_as`: into a
`CompositeSpace`, slice the matrix into contiguous column ranges sized by
each component's total dimension and recursively format each slice from a
fresh `VectorSpace(width)` into its component; into a `Conv2DSpace`,
reshape (batch-leading first, then `dimshuffle`, when the destination's
`axes[0] != 'b'`); any other destination raises `NotImplementedError`. -/
def formatVectorTo {α : Type} [Inhabited α] (dim : Int) (sparse : Bool)
    (dst : Space) (batch : NpBatch α) : Except FmtError (NpBatch α) :=
  formatWrapper (.vector dim sparse) dst batch
    (match dst, batch with
      | .composite comps, .mat m =>
        (match formatVectorToComps m 0 comps with
          | .error e => .error e
          | .ok pieces => .ok (.tup pieces))
      | .conv2d h w c ax, .mat m =>
        let dims := axisDim m.length h w c
        if ax.getD 0 Axis.b ≠ Axis.b then
          let tmp_axes := Axis.b :: ax.filter (fun a => a ≠ Axis.b)
          let reshaped := matToArr4 m (tmp_axes.map dims)
          .ok (.arr (npTranspose reshaped (ax.map (fun a => tmp_axes.indexOf a))))
        else .ok (.arr (matToArr4 m (ax.map dims)))
      | _, _ => .error .notImplemented)

/-- The loop of `VectorSpace._format_as` over the destination components:
`width = component.get_total_dimension()`, slice `batch[:, pos:pos+width]`,
format the slice via `VectorSpace(width).format_as(subtensor, component)`,
advance `pos` by `width`. -/
def formatVectorToComps {α : Type} [Inhabited α] (m : List (List α))
    (pos : Int) : List Space → Except FmtError (List (NpBatch α))
  | [] => .ok []
  | comp :: rest =>
    match get_total_dimension comp with
    | .error e => .error e
    | .ok width =>
      match formatVectorTo width false comp (.mat (sliceCols m pos width)) with
      | .error e => .error e
      | .ok piece =>
        match formatVectorToComps m (pos + width) rest with
        | .error e => .error e
        | .ok others => .ok (piece :: others)
end

mutual
/-- `Space.format_as(self, batch, space)` for `space = VectorSpace(dim2,
sparse2)`: the shared wrapper followed by `self._format_as`:
`VectorSpace._format_as` has no `VectorSpace` destination branch and raises
`NotImplementedError`; `Conv2DSpace._format_as` `dimshuffle`s batch-first
when `self.axes[0] != 'b'` and reshapes to `(shape[0], total)`;
`CompositeSpace._format_as` recursively formats every component batch into
a `VectorSpace` of that component's width and concatenates along axis 1. -/
def formatToVector {α : Type} [Inhabited α] (src : Space) (batch : NpBatch α)
    (dim2 : Int) (sparse2 : Bool) : Except FmtError (NpBatch α) :=
  formatWrapper src (.vector dim2 sparse2) batch
    (match src, batch with
      | .conv2d h w c ax, .arr X =>
        let X2 :=
          if ax.getD 0 Axis.b ≠ Axis.b then
            npTranspose X
              ((Axis.b :: ax.filter (fun a => a ≠ Axis.b)).map (fun a => ax.indexOf a))
          else X
        .ok (.mat X2.toFlatRows)
      | .composite comps, .tup bs =>
        (match formatCompsToVector comps bs with
          | .error e => .error e
          | .ok pieces => .ok (.mat (concatCols pieces)))
      | _, _ => .error .notImplemented)

/-- The loop of `CompositeSpace._format_as` over
`zip(self.components, batch)`: each piece is formatted by
`component.format_as(input_piece, VectorSpace(width))` with
`width = component.get_total_dimension()`; the results are the matrices
that `T.concatenate` then joins along axis 1 (a non-matrix result cannot
be concatenated and is a `TypeError`). -/
def formatCompsToVector {α : Type} [Inhabited α] :
    List Space → List (NpBatch α) → Except FmtError (List (List (List α)))
  | [], _ => .ok []
  | _ :: _, [] => .ok []
  | comp :: rest, piece :: ps =>
    match get_total_dimension comp with
    | .error e => .error e
    | .ok width =>
      match formatToVector comp piece width false with
      | .error e => .error e
      | .ok (.mat m) =>
        match formatCompsToVector rest ps with
        | .error e => .error e
        | .ok others => .ok (m :: others)
      | .ok _ => .error .typeError
end

/-- `Space.format_as` for the remaining source/destination pairs (neither
side a `VectorSpace`): the shared wrapper (note `NullSpace` raises
`NotImplementedError` from `get_total_dimension` before anything else can
happen) followed by `_format_as`: `Conv2DSpace` → `Conv2DSpace` is
`Conv2DSpace.convert`; every other pair raises `NotImplementedError`. -/
def genericFormat {α : Type} (src dst : Space) (batch : NpBatch α) :
    Except FmtError (NpBatch α) :=
  formatWrapper src dst batch
    (match src, dst, batch with
      | .conv2d _ _ _ ax, .conv2d _ _ _ ax2, .arr X =>
        .ok (.arr (Conv2DSpace.convert X ax ax2))
      | _, _, _ => .error .notImplemented)

/-- `Space.format_as(self, batch, space)`, dispatching on the subclass of
`self` and `space`.  Each branch implements the full wrapper of
`Space.format_as` (validate, total-dimension check, `self == space`
short-circuit) followed by the matching `_format_as`. -/
def format_as {α : Type} [Inhabited α] (src dst : Space) (batch : NpBatch α) :
    Except FmtError (NpBatch α) :=
  match src, dst with
  | .vector d s, _ => formatVectorTo d s dst batch
  | _, .vector d s => formatToVector src batch d s
  | _, _ => genericFormat src dst batch

/-! ### Machinery for claim C3: the equality relation actually implemented -/

mutual
/-- Forget the one attribute `__eq__` does not compare: `VectorSpace.sparse`.
Two descriptors are `spaceEq` exactly when their `eraseSparse` images are
structurally identical. -/
def eraseSparse : Space → Space
  | .vector d _ => .vector d false
  | .conv2d h w c ax => .conv2d h w c ax
  | .composite cs => .composite (eraseSparseList cs)
  | .null => .null

/-- `eraseSparse` mapped over a component list. -/
def eraseSparseList : List Space → List Space
  | [] => []
  | s :: r => eraseSparse s :: eraseSparseList r
end

/-- A numeric code for an axis tag, used by the hash model. -/
def axisCode : Axis → Nat
  | .b => 0
  | .c => 1
  | .i0 => 2
  | .i1 => 3

mutual
/-- `__hash__` per subclass, modelled as an encoding list:
`VectorSpace` hashes `(type, dim)` — like `__eq__` it omits `sparse` —
`Conv2DSpace` hashes `(type, shape, num_channels, axes)`, `CompositeSpace`
hashes `(type, tuple(components))`, `NullSpace` hashes `type` alone. -/
def spaceHash : Space → List Int
  | .vector d _ => [0, d]
  | .conv2d h w c ax => [1, (h : Int), (w : Int), (c : Int)] ++ ax.map (fun a => (axisCode a : Int))
  | .composite cs => 2 :: spaceHashList cs
  | .null => [3]

/-- Component hashes, concatenated with length prefixes. -/
def spaceHashList : List Space → List Int
  | [] => []
  | s :: r => ((spaceHash s).length : Int) :: spaceHash s ++ spaceHashList r
end

mutual
/-- `spaceEq` is structural equality after forgetting `sparse`. -/
def spaceEq_iff_eraseSparse : (s1 s2 : Space) →
    (spaceEq s1 s2 = true ↔ eraseSparse s1 = eraseSparse s2)
  | .vector _ _, .vector _ _ => by simp [spaceEq, eraseSparse]
  | .vector _ _, .conv2d _ _ _ _ => by simp [spaceEq, eraseSparse]
  | .vector _ _, .composite _ => by simp [spaceEq, eraseSparse]
  | .vector _ _, .null => by simp [spaceEq, eraseSparse]
  | .conv2d _ _ _ _, .vector _ _ => by simp [spaceEq, eraseSparse]
  | .conv2d _ _ _ _, .conv2d _ _ _ _ => by
      simp [spaceEq, eraseSparse, and_assoc]
  | .conv2d _ _ _ _, .composite _ => by simp [spaceEq, eraseSparse]
  | .conv2d _ _ _ _, .null => by simp [spaceEq, eraseSparse]
  | .composite l1, .composite l2 => by
      have h := spaceEqList_iff_eraseSparse l1 l2
      simpa [spaceEq, eraseSparse] using h
  | .composite _, .vector _ _ => by simp [spaceEq, eraseSparse]
  | .composite _, .conv2d _ _ _ _ => by simp [spaceEq, eraseSparse]
  | .composite _, .null => by simp [spaceEq, eraseSparse]
  | .null, .vector _ _ => by simp [spaceEq, eraseSparse]
  | .null, .conv2d _ _ _ _ => by simp [spaceEq, eraseSparse]
  | .null, .composite _ => by simp [spaceEq, eraseSparse]
  | .null, .null => by simp [spaceEq, eraseSparse]

/-- List version: equal lengths plus pairwise `spaceEq` is exactly equality
of the `eraseSparse` images. -/
def spaceEqList_iff_eraseSparse : (l1 l2 : List Space) →
    ((l1.length = l2.length ∧ spaceEqList l1 l2 = true) ↔
      eraseSparseList l1 = eraseSparseList l2)
  | [], [] => by simp [spaceEqList, eraseSparseList]
  | [], _ :: _ => by simp [spaceEqList, eraseSparseList]
  | _ :: _, [] => by simp [spaceEqList, eraseSparseList]
  | s1 :: r1, s2 :: r2 => by
      have ih1 := spaceEq_iff_eraseSparse s1 s2
      have ih2 := spaceEqList_iff_eraseSparse r1 r2
      constructor
      · rintro ⟨hlen, hall⟩
        rw [List.length_cons, List.length_cons] at hlen
        rcases Bool.and_eq_true_iff.mp (by simpa [spaceEqList] using hall) with ⟨h1, h2⟩
        simp only [eraseSparseList, List.cons.injEq]
        exact ⟨ih1.mp h1, ih2.mp ⟨Nat.succ_injective hlen, h2⟩⟩
      · intro h
        simp only [eraseSparseList, List.cons.injEq] at h
        rcases h with ⟨h1, h2⟩
        rcases ih2.mpr h2 with ⟨hlen, hall⟩
        refine ⟨by simp [hlen], ?_⟩
        simp [spaceEqList, ih1.mpr h1, hall]
end

mutual
/-- The hash model only looks at the `eraseSparse` image. -/
def spaceHash_eraseSparse : (s : Space) → spaceHash (eraseSparse s) = spaceHash s
  | .vector _ _ => rfl
  | .conv2d _ _ _ _ => rfl
  | .composite cs => by
      simp only [eraseSparse, spaceHash]
      rw [spaceHashList_eraseSparse cs]
  | .null => rfl

/-- List version of `spaceHash_eraseSparse`. -/
def spaceHashList_eraseSparse : (l : List Space) →
    spaceHashList (eraseSparseList l) = spaceHashList l
  | [] => rfl
  | s :: r => by
      simp only [eraseSparseList, spaceHashList]
      rw [spaceHash_eraseSparse s, spaceHashList_eraseSparse r]
end

/-! ### Claims C3, C4, C5, C8, C9, C10 -/

/-- Claim C3, counterexample: the claim asserts structural equality over
all declared attributes, with `sparse` among `VectorSpace`'s attributes;
but in the code `VectorSpace(3, sparse=True) == VectorSpace(3, sparse=False)`
evaluates to `True`, since `VectorSpace.__eq__` compares only `dim`. -/
theorem c3_counterexample :
    spaceEq (Space.vector 3 true) (Space.vector 3 false) = true := rfl

/-- Claim C3, amended: two descriptors are equal iff they are the same
variant with the same attributes, except that `VectorSpace`'s `sparse`
flag is not compared (equality is structural equality after forgetting
`sparse`); equal descriptors have equal hashes (the hash also omits
`sparse`). -/
theorem c3_equality_structural_except_sparse (s1 s2 : Space) :
    (spaceEq s1 s2 = true ↔ eraseSparse s1 = eraseSparse s2) ∧
    (spaceEq s1 s2 = true → spaceHash s1 = spaceHash s2) := by
  refine ⟨spaceEq_iff_eraseSparse s1 s2, fun h => ?_⟩
  have := congrArg spaceHash ((spaceEq_iff_eraseSparse s1 s2).mp h)
  rwa [spaceHash_eraseSparse s1, spaceHash_eraseSparse s2] at this

/-- Witness for C3's amended theorem at a concrete pair: sparse and dense
`VectorSpace(3)` are equal and share a hash. -/
theorem c3_witness :
    spaceHash (Space.vector 3 true) = spaceHash (Space.vector 3 false) :=
  (c3_equality_structural_except_sparse (Space.vector 3 true)
    (Space.vector 3 false)).2 rfl

/-- Claim C4, counterexample: `VectorSpace(dim=0)` does not fail — the
constructor stores `dim = 0` and returns a descriptor. -/
theorem c4_counterexample : VectorSpace.init 0 false = Space.vector 0 false := rfl

/-- Claim C4, amended: `VectorSpace.__init__` performs no validation at
all: every `dim` (zero and negative values included) is silently accepted
and stored unchanged, and no error is ever raised at construction time. -/
theorem c4_init_never_validates (dim : Int) (sparse : Bool) :
    VectorSpace.init dim sparse = Space.vector dim sparse := rfl

/-- Claim C5, counterexample: `Conv2DSpace.__init__` only asserts
`len(axes) == 4`, so the repeated-tag sequence `('b','b',0,1)` is accepted
and produces a descriptor. -/
theorem c5_counterexample :
    Conv2DSpace.init [2, 2] none (some 1) (some [Axis.b, Axis.b, Axis.i0, Axis.i1]) =
      some (Space.conv2d 2 2 1 [Axis.b, Axis.b, Axis.i0, Axis.i1]) := rfl

/-- Claim C5, amended: a constructed `Conv2DSpace` stores whatever length-4
axes sequence it was given (defaulting to `('b', 0, 1, 'c')` when omitted);
construction checks only the length of `axes`, so any length-4 sequence —
permutation of `{'b','c',0,1}` or not — produces a descriptor, and only a
sequence whose length is not 4 is rejected. -/
theorem c5_axes_length_only_checked (h w c : Nat) (ax : List Axis)
    (hh : 0 < h) (hw : 0 < w) (hc : 0 < c) :
    Conv2DSpace.init [(h : Int), (w : Int)] none (some (c : Int)) none =
      some (Space.conv2d h w c defaultAxes) ∧
    (ax.length = 4 →
      Conv2DSpace.init [(h : Int), (w : Int)] none (some (c : Int)) (some ax) =
        some (Space.conv2d h w c ax)) ∧
    (ax.length ≠ 4 →
      Conv2DSpace.init [(h : Int), (w : Int)] none (some (c : Int)) (some ax) = none) := by
  simp [Conv2DSpace.init, defaultAxes, hh, hw, hc, Int.natCast_pos]
  omega

/-- Witness for C5's amended theorem: a 2×2, 1-channel space built with the
default axes and with the explicit (non-permutation) axes `('b','b',0,1)`,
and rejection of a length-3 axes list. -/
theorem c5_witness :
    Conv2DSpace.init [2, 2] none (some 1) none = some (Space.conv2d 2 2 1 defaultAxes) ∧
    (Conv2DSpace.init [2, 2] none (some 1) (some [Axis.b, Axis.c, Axis.i0]) = none) := by
  have h := c5_axes_length_only_checked 2 2 1 [Axis.b, Axis.c, Axis.i0]
    (by decide) (by decide) (by decide)
  exact ⟨h.1, h.2.2 (by decide)⟩

/-- Claim C8: for a valid `Conv2DSpace(shape=(h,w), num_channels=c,
axes=ax)` and positive integer `n`, `get_origin_batch(n)` is the all-zero
4-d array whose shape, read position by position through `ax`, is the
lookup `{b: n, 0: h, 1: w, c: c}`; a non-integer `n` raises `TypeError`. -/
theorem c8_get_origin_batch (h w c : Nat) (ax : List Axis) (n : Int) (hn : 0 < n) :
    Conv2DSpace.get_origin_batch h w c ax (some n) =
      .ok { shape := ax.map (axisDim n.toNat h w c), data := fun _ => 0 } ∧
    Conv2DSpace.get_origin_batch h w c ax none = .error .typeError := by
  constructor
  · simp [Conv2DSpace.get_origin_batch, hn.not_le]
  · rfl

/-- Witness for C8 at `shape=(2,3)`, 4 channels, default axes, `n = 5`. -/
theorem c8_witness :
    Conv2DSpace.get_origin_batch 2 3 4 defaultAxes (some 5) =
      .ok { shape := [5, 2, 3, 4], data := fun _ => 0 } := by
  have h := (c8_get_origin_batch 2 3 4 defaultAxes 5 (by decide)).1
  simpa [defaultAxes, axisDim] using h

/-- `[self.components[i] for i in subset]` returns exactly the selected
components, in subset order, when every index is in range. -/
theorem pickComponents_eq (comps : List Space) :
    ∀ subset : List Nat, (∀ i ∈ subset, i < comps.length) →
      CompositeSpace.pickComponents comps subset =
        some (subset.map (fun i => comps.getD i Space.null))
  | [], _ => rfl
  | j :: rest, hin => by
      have hj : j < comps.length := hin j (by simp)
      have ih := pickComponents_eq comps rest (fun i hi => hin i (by simp [hi]))
      rw [CompositeSpace.pickComponents, List.get?_eq_getElem?,
        List.getElem?_eq_getElem hj, ih]
      simp [List.getD_eq_getElem comps Space.null hj, List.getElem?_eq_getElem hj]

/-- Claim C9: `restrict` keeps the components selected by the index subset
in the subset's order; a one-index subset yields that component directly
rather than a length-1 `CompositeSpace`; in particular
`restrict(CompositeSpace([A,B,C]), [2])` is `C` and
`restrict(CompositeSpace([A,B,C]), [2,0])` is `CompositeSpace([C,A])`. -/
theorem c9_restrict (A B C : Space) (comps : List Space) (subset : List Nat)
    (hin : ∀ i ∈ subset, i < comps.length) (hlen : subset.length ≠ 1) :
    CompositeSpace.restrict comps subset =
      some (.composite (subset.map (fun i => comps.getD i Space.null))) ∧
    (∀ j : Nat, CompositeSpace.restrict comps [j] = comps.get? j) ∧
    CompositeSpace.restrict [A, B, C] [2] = some C ∧
    CompositeSpace.restrict [A, B, C] [2, 0] = some (.composite [C, A]) := by
  refine ⟨?_, fun j => rfl, rfl, rfl⟩
  rw [CompositeSpace.restrict, if_neg hlen, pickComponents_eq comps subset hin]

/-- Witness for C9: three concrete component spaces, subset `[2, 0]`. -/
theorem c9_witness :
    CompositeSpace.restrict [Space.vector 1 false, Space.vector 2 false, Space.null]
      [2, 0] = some (.composite [Space.null, Space.vector 1 false]) := by
  have h := c9_restrict (Space.vector 1 false) (Space.vector 2 false) Space.null
    [Space.vector 1 false, Space.vector 2 false, Space.null] [2, 0]
    (by intro i hi; fin_cases hi <;> decide) (by decide)
  simpa using h.1

/-- Claim C10: `Conv2DSpace.get_batch_size` reads the batch extent from the
axis position tagged `'b'` in the descriptor's `axes`
(`data.shape[self.axes.index('b')]`), not necessarily the first physical
axis. -/
theorem c10_get_batch_size {α : Type} (h w c n : Nat) (ax : List Axis) (X : Arr4 α)
    (hmem : Axis.b ∈ ax) (hshape : X.shape = ax.map (axisDim n h w c)) :
    Conv2DSpace.get_batch_size h w c ax X = n := by
  have hlt : ax.indexOf Axis.b < ax.length := List.indexOf_lt_length.mpr hmem
  have hlt2 : ax.indexOf Axis.b < (ax.map (axisDim n h w c)).length := by
    simpa using hlt
  rw [Conv2DSpace.get_batch_size, hshape,
    List.getD_eq_getElem _ _ hlt2, List.getElem_map, List.getElem_indexOf hlt]
  rfl

/-- Witness for C10 with the non-batch-leading ordering `('c', 0, 1, 'b')`:
the batch size 7 is read from the last axis, while the first physical axis
has extent 4. -/
theorem c10_witness :
    Conv2DSpace.get_batch_size 2 3 4 [Axis.c, Axis.i0, Axis.i1, Axis.b]
      { shape := [4, 2, 3, 7], data := fun _ => (0 : Int) } = 7 :=
  c10_get_batch_size 2 3 4 7 [Axis.c, Axis.i0, Axis.i1, Axis.b] _ (by decide) rfl

/-! ### Claims C6 and C7: the `format_as` wrapper -/

/-- The wrapper raises the incompatible-dimension `ValueError`, naming both
totals, whenever the two totals exist and differ — before any conversion
runs. -/
theorem formatWrapper_incompat {α : Type} (src dst : Space) (batch : NpBatch α)
    (cont : Except FmtError (NpBatch α)) (d1 d2 : Int)
    (hv : validateB src batch = true)
    (h1 : get_total_dimension src = .ok d1) (h2 : get_total_dimension dst = .ok d2)
    (hne : d1 ≠ d2) :
    formatWrapper src dst batch cont = .error (.incompatibleDims d1 d2) := by
  rw [formatWrapper, h1, h2]
  simp [hv, hne]

/-- The wrapper propagates a failing `self.get_total_dimension()`. -/
theorem formatWrapper_srcErr {α : Type} (src dst : Space) (batch : NpBatch α)
    (cont : Except FmtError (NpBatch α)) (e : FmtError)
    (hv : validateB src batch = true)
    (h1 : get_total_dimension src = .error e) :
    formatWrapper src dst batch cont = .error e := by
  rw [formatWrapper, h1]
  simp [hv]

/-- `formatWrapper_incompat`, specialised to a `VectorSpace` source. -/
theorem formatVectorTo_incompat {α : Type} [Inhabited α] (dim : Int) (sp : Bool)
    (dst : Space) (batch : NpBatch α) (d2 : Int)
    (hv : validateB (.vector dim sp) batch = true)
    (h2 : get_total_dimension dst = .ok d2) (hne : dim ≠ d2) :
    formatVectorTo dim sp dst batch = .error (.incompatibleDims dim d2) := by
  unfold formatVectorTo
  exact formatWrapper_incompat _ _ _ _ dim d2 hv rfl h2 hne

/-- `formatWrapper_incompat`, specialised to a `VectorSpace` destination. -/
theorem formatToVector_incompat {α : Type} [Inhabited α] (src : Space)
    (batch : NpBatch α) (dim2 : Int) (sp2 : Bool) (d1 : Int)
    (hv : validateB src batch = true)
    (h1 : get_total_dimension src = .ok d1) (hne : d1 ≠ dim2) :
    formatToVector src batch dim2 sp2 = .error (.incompatibleDims d1 dim2) := by
  unfold formatToVector
  exact formatWrapper_incompat _ _ _ _ d1 dim2 hv h1 rfl hne

/-- `formatWrapper_incompat`, specialised to the remaining pairs. -/
theorem genericFormat_incompat {α : Type} (src dst : Space) (batch : NpBatch α)
    (d1 d2 : Int) (hv : validateB src batch = true)
    (h1 : get_total_dimension src = .ok d1) (h2 : get_total_dimension dst = .ok d2)
    (hne : d1 ≠ d2) :
    genericFormat src dst batch = .error (.incompatibleDims d1 d2) := by
  unfold genericFormat
  exact formatWrapper_incompat _ _ _ _ d1 d2 hv h1 h2 hne

/-- `formatWrapper_srcErr`, specialised to a `VectorSpace` destination. -/
theorem formatToVector_srcErr {α : Type} [Inhabited α] (src : Space)
    (batch : NpBatch α) (dim2 : Int) (sp2 : Bool) (e : FmtError)
    (hv : validateB src batch = true)
    (h1 : get_total_dimension src = .error e) :
    formatToVector src batch dim2 sp2 = .error e := by
  unfold formatToVector
  exact formatWrapper_srcErr _ _ _ _ _ hv h1

/-- `formatWrapper_srcErr`, specialised to the remaining pairs. -/
theorem genericFormat_srcErr {α : Type} (src dst : Space) (batch : NpBatch α)
    (e : FmtError) (hv : validateB src batch = true)
    (h1 : get_total_dimension src = .error e) :
    genericFormat src dst batch = .error e := by
  unfold genericFormat
  exact formatWrapper_srcErr _ _ _ _ _ hv h1

/-- Claim C6: whenever the source and destination totals both exist and
differ, `format_as` on a batch that validates under the source raises the
incompatible-dimension error carrying both totals, and no converted batch
is produced. -/
theorem c6_incompatible_dims {α : Type} [Inhabited α] (src dst : Space)
    (batch : NpBatch α) (d1 d2 : Int) (hv : validateB src batch = true)
    (h1 : get_total_dimension src = .ok d1) (h2 : get_total_dimension dst = .ok d2)
    (hne : d1 ≠ d2) :
    format_as src dst batch = .error (.incompatibleDims d1 d2) := by
  cases src with
  | vector d s =>
    have hd : d = d1 := by simpa [get_total_dimension] using h1
    subst hd
    cases dst with
    | vector dd ss => exact formatVectorTo_incompat d s _ batch d2 hv h2 hne
    | conv2d h2' w2' c2' ax2 => exact formatVectorTo_incompat d s _ batch d2 hv h2 hne
    | composite cs2 => exact formatVectorTo_incompat d s _ batch d2 hv h2 hne
    | null => exact absurd h2 (by simp [get_total_dimension])
  | conv2d h w c ax =>
    cases dst with
    | vector dd ss =>
      have hd : dd = d2 := by simpa [get_total_dimension] using h2
      subst hd
      exact formatToVector_incompat _ batch dd ss d1 hv h1 hne
    | conv2d h2' w2' c2' ax2 => exact genericFormat_incompat _ _ batch d1 d2 hv h1 h2 hne
    | composite cs => exact genericFormat_incompat _ _ batch d1 d2 hv h1 h2 hne
    | null => exact absurd h2 (by simp [get_total_dimension])
  | composite cs =>
    cases dst with
    | vector dd ss =>
      have hd : dd = d2 := by simpa [get_total_dimension] using h2
      subst hd
      exact formatToVector_incompat _ batch dd ss d1 hv h1 hne
    | conv2d h2' w2' c2' ax2 => exact genericFormat_incompat _ _ batch d1 d2 hv h1 h2 hne
    | composite cs2 => exact genericFormat_incompat _ _ batch d1 d2 hv h1 h2 hne
    | null => exact absurd h2 (by simp [get_total_dimension])
  | null => exact absurd h1 (by simp [get_total_dimension])

/-- Witness for C6 at the claim's own example: `VectorSpace(dim=3)`
formatted into `VectorSpace(dim=4)` raises the error naming 3 and 4. -/
theorem c6_witness :
    format_as (.vector 3 false) (.vector 4 false) (NpBatch.mat [[1, 2, 3]] : NpBatch Int) =
      .error (.incompatibleDims 3 4) :=
  c6_incompatible_dims (.vector 3 false) (.vector 4 false) _ 3 4 rfl rfl rfl
    (by decide)

/-- Claim C7, counterexample: through the public `format_as` entry point,
even the `NullSpace` → `NullSpace` conversion of the `None` placeholder
does not return the placeholder: `Space.format_as` first calls
`self.get_total_dimension()`, which `NullSpace` does not implement, so
`NotImplementedError` is raised. -/
theorem c7_counterexample :
    format_as Space.null Space.null (NpBatch.null : NpBatch Int) =
      .error .notImplemented := rfl

/-- Claim C7, amended: at the `np_format_as` / `_format_as` level the only
legal conversion out of `NullSpace` is `NullSpace` → `NullSpace`, which
accepts exactly the `None` placeholder and always returns it; through the
public `format_as` entry point, however, every conversion out of
`NullSpace` (the identity conversion of the placeholder included) raises
`NotImplementedError`, because `Space.format_as` unconditionally calls
`get_total_dimension`, which `NullSpace` does not implement. -/
theorem c7_null_conversions {α : Type} [Inhabited α] (space : Space)
    (batch out : NpBatch α) :
    (NullSpace.np_format_as batch space = .ok out ↔
      space = Space.null ∧ batch = NpBatch.null ∧ out = NpBatch.null) ∧
    format_as Space.null space (NpBatch.null : NpBatch α) = .error .notImplemented := by
  constructor
  · cases space <;> cases batch <;>
      simp [NullSpace.np_format_as, eq_comm]
  · cases space with
    | vector d s => exact formatToVector_srcErr _ _ d s _ rfl rfl
    | conv2d h w c ax => exact genericFormat_srcErr _ _ _ _ rfl rfl
    | composite cs => exact genericFormat_srcErr _ _ _ _ rfl rfl
    | null => exact genericFormat_srcErr _ _ _ _ rfl rfl

/-! ### Claim C2: VectorSpace ↔ CompositeSpace round trip -/

/-- The wrapper defers to `_format_as` when the totals agree and
`self != space`. -/
theorem formatWrapper_cont {α : Type} (src dst : Space) (batch : NpBatch α)
    (cont : Except FmtError (NpBatch α)) (d1 d2 : Int)
    (hv : validateB src batch = true)
    (h1 : get_total_dimension src = .ok d1) (h2 : get_total_dimension dst = .ok d2)
    (heq : d1 = d2) (hsp : spaceEq src dst = false) :
    formatWrapper src dst batch cont = cont := by
  rw [formatWrapper, h1, h2]
  simp [hv, heq, hsp]

/-- The wrapper returns the batch unchanged when `self == space`. -/
theorem formatWrapper_shortcircuit {α : Type} (src dst : Space) (batch : NpBatch α)
    (cont : Except FmtError (NpBatch α)) (d1 d2 : Int)
    (hv : validateB src batch = true)
    (h1 : get_total_dimension src = .ok d1) (h2 : get_total_dimension dst = .ok d2)
    (heq : d1 = d2) (hsp : spaceEq src dst = true) :
    formatWrapper src dst batch cont = .ok batch := by
  rw [formatWrapper, h1, h2]
  simp [hv, heq, hsp]

/-- `VectorSpace(w).format_as(m, VectorSpace(w))` is the identity (the
`self == space` shortcut). -/
theorem formatVectorTo_id {α : Type} [Inhabited α] (w : Int) (m : List (List α)) :
    formatVectorTo w false (.vector w false) (.mat m) = .ok (.mat m) := by
  unfold formatVectorTo
  exact formatWrapper_shortcircuit _ _ _ _ w w rfl rfl rfl rfl (by simp [spaceEq])

/-- Same shortcut, entering through the destination-vector dispatch. -/
theorem formatToVector_id {α : Type} [Inhabited α] (w : Int) (m : List (List α)) :
    formatToVector (.vector w false) (.mat m) w false = .ok (.mat m) := by
  unfold formatToVector
  exact formatWrapper_shortcircuit _ _ _ _ w w rfl rfl rfl rfl (by simp [spaceEq])

/-- Claim C2: formatting a valid `VectorSpace(d)` batch into
`CompositeSpace([VectorSpace(a), VectorSpace(d-a)])` slices it into the two
contiguous column ranges `[:, 0:a]` and `[:, a:d]` in component order, and
formatting that tuple back into `VectorSpace(d)` (per-component conversion,
then concatenation along axis 1) reproduces the batch exactly, value for
value and in the same row order. -/
theorem c2_roundtrip {α : Type} [Inhabited α] (d a : Nat) (X : List (List α))
    (ha : 0 < a) (had : a < d) (hX : ∀ r ∈ X, r.length = d) :
    format_as (.vector (d : Int) false)
      (.composite [.vector (a : Int) false, .vector ((d - a : Nat) : Int) false])
      (.mat X : NpBatch α) =
      .ok (.tup [.mat (sliceCols X 0 (a : Int)),
                 .mat (sliceCols X (a : Int) ((d - a : Nat) : Int))]) ∧
    format_as (.composite [.vector (a : Int) false, .vector ((d - a : Nat) : Int) false])
      (.vector (d : Int) false)
      (.tup [.mat (sliceCols X 0 (a : Int)),
             .mat (sliceCols X (a : Int) ((d - a : Nat) : Int))] : NpBatch α) =
      .ok (.mat X) := by
  have heq : (d : Int) = (a : Int) + (((d - a : Nat) : Int) + 0) := by omega
  constructor
  · have hcomps : formatVectorToComps X 0
        [.vector (a : Int) false, .vector ((d - a : Nat) : Int) false] =
        .ok [.mat (sliceCols X 0 (a : Int)),
             .mat (sliceCols X ((0 : Int) + (a : Int)) ((d - a : Nat) : Int))] := by
      simp only [formatVectorToComps, get_total_dimension, formatVectorTo_id]
    have hstep : format_as (.vector (d : Int) false)
        (.composite [.vector (a : Int) false, .vector ((d - a : Nat) : Int) false])
        (.mat X : NpBatch α) =
        (match formatVectorToComps X 0
            [.vector (a : Int) false, .vector ((d - a : Nat) : Int) false] with
          | .error e => .error e
          | .ok pieces => .ok (.tup pieces)) := by
      show formatVectorTo _ _ _ _ = _
      unfold formatVectorTo
      exact formatWrapper_cont _ _ _ _ (d : Int) _ rfl rfl rfl heq (by simp [spaceEq])
    rw [hstep, hcomps]
    norm_num
  · have hcomps2 : formatCompsToVector
        [.vector (a : Int) false, .vector ((d - a : Nat) : Int) false]
        ([.mat (sliceCols X 0 (a : Int)),
          .mat (sliceCols X (a : Int) ((d - a : Nat) : Int))] : List (NpBatch α)) =
        .ok [sliceCols X 0 (a : Int), sliceCols X (a : Int) ((d - a : Nat) : Int)] := by
      simp only [formatCompsToVector, get_total_dimension, formatToVector_id]
    have hconcat : concatCols [sliceCols X 0 (a : Int),
        sliceCols X (a : Int) ((d - a : Nat) : Int)] = X := by
      have hrows : ∀ r ∈ X,
          ((r.drop (0 : Int).toNat).take ((a : Int)).toNat ++
            ((r.drop ((a : Int)).toNat).take (((d - a : Nat) : Int)).toNat)) = r := by
        intro r hr
        have hlen := hX r hr
        simp only [Int.toNat_zero, Int.toNat_natCast, List.drop_zero]
        have h1 : (r.drop a).length = d - a := by simp [hlen]
        rw [← h1, List.take_length, List.take_append_drop]
      simp only [concatCols, List.foldl_cons, List.foldl_nil, sliceCols]
      rw [List.zipWith_map, List.zipWith_same]
      exact (List.map_congr_left hrows).trans (List.map_id X)
    have hstep2 : format_as
        (.composite [.vector (a : Int) false, .vector ((d - a : Nat) : Int) false])
        (.vector (d : Int) false)
        (.tup [.mat (sliceCols X 0 (a : Int)),
               .mat (sliceCols X (a : Int) ((d - a : Nat) : Int))] : NpBatch α) =
        (match formatCompsToVector
            [.vector (a : Int) false, .vector ((d - a : Nat) : Int) false]
            ([.mat (sliceCols X 0 (a : Int)),
              .mat (sliceCols X (a : Int) ((d - a : Nat) : Int))] : List (NpBatch α)) with
          | .error e => .error e
          | .ok pieces => .ok (.mat (concatCols pieces))) := by
      show formatToVector _ _ _ _ = _
      unfold formatToVector
      exact formatWrapper_cont _ _ _ _ _ (d : Int) rfl rfl rfl heq.symm (by simp [spaceEq])
    rw [hstep2, hcomps2]
    exact congrArg (fun m => Except.ok (NpBatch.mat m)) hconcat

/-- Witness for C2 at `d = 3`, `a = 1`,
`X = [[1,2,3],[4,5,6]]` over `Int`. -/
theorem c2_witness :
    format_as (.vector 3 false) (.composite [.vector 1 false, .vector 2 false])
      (.mat [[1, 2, 3], [4, 5, 6]] : NpBatch Int) =
      .ok (.tup [.mat [[1], [4]], .mat [[2, 3], [5, 6]]]) ∧
    format_as (.composite [.vector 1 false, .vector 2 false]) (.vector 3 false)
      (.tup [.mat [[1], [4]], .mat [[2, 3], [5, 6]]] : NpBatch Int) =
      .ok (.mat [[1, 2, 3], [4, 5, 6]]) := by
  have h := c2_roundtrip 3 1 ([[1, 2, 3], [4, 5, 6]] : List (List Int))
    (by decide) (by decide)
    (by intro r hr; simp only [List.mem_cons, List.not_mem_nil, or_false] at hr
        rcases hr with rfl | rfl <;> rfl)
  exact h

/-! ### Claim C1: Conv2DSpace → Conv2DSpace conversion is one transpose -/

/-- theano's conv2d axis ordering `('b', 'c', 0, 1)`. -/
def bc01Axes : List Axis := [.b, .c, .i0, .i1]

/-- A list of length four is literally a four-element list. -/
theorem listLengthFour {β : Type} {l : List β} (h : l.length = 4) :
    ∃ a b c d, l = [a, b, c, d] := by
  rcases l with _ | ⟨a, l⟩
  · simp at h
  rcases l with _ | ⟨b, l⟩
  · simp at h
  rcases l with _ | ⟨c, l⟩
  · simp at h
  rcases l with _ | ⟨d, l⟩
  · simp at h
  rcases l with _ | ⟨e, l⟩
  · exact ⟨a, b, c, d, rfl⟩
  · simp [List.length] at h

/-- On a four-element duplicate-free axes list, `[axes.index(a) for a in
axes]` is the identity permutation vector. -/
theorem nodupFour_map_indexOf :
    ∀ (a0 a1 a2 a3 : Axis), [a0, a1, a2, a3].Nodup →
      [a0, a1, a2, a3].map (fun x => [a0, a1, a2, a3].indexOf x) = [0, 1, 2, 3] := by
  decide

/-- Same statement for any permutation of the four axis tags. -/
theorem axesPerm_map_indexOf (ax : List Axis) (hp : ax.Perm defaultAxes) :
    ax.map (fun x => ax.indexOf x) = [0, 1, 2, 3] := by
  have hlen : ax.length = 4 := by
    have := hp.length_eq
    simpa [defaultAxes] using this
  have hnd : ax.Nodup := hp.nodup_iff.mpr (by decide)
  obtain ⟨a0, a1, a2, a3, rfl⟩ := listLengthFour hlen
  exact nodupFour_map_indexOf a0 a1 a2 a3 hnd

/-- Transposing a 4-d array by the identity permutation returns it. -/
theorem npTranspose_id {α : Type} (X : Arr4 α) (hlen : X.shape.length = 4) :
    npTranspose X [0, 1, 2, 3] = X := by
  obtain ⟨s0, s1, s2, s3, hs⟩ := listLengthFour hlen
  refine Arr4.ext ?_ ?_
  · show [0, 1, 2, 3].map (fun k => X.shape.getD k 0) = X.shape
    rw [hs]
    rfl
  · simp only [npTranspose]
    funext idx
    congr 1
    funext m
    fin_cases m <;> rfl

/-- Claim C1: between two `Conv2DSpace`s that differ only in their axes
orderings, `np_format_as` of a valid batch is exactly the single numpy
transpose whose permutation vector is
`[src_axes.index(a) for a in dst_axes]` (pure axis permutation, no value
change — also in the `src_axes == dst_axes` case, where that transpose is
the identity); and for any batch valid under axes `('b', 0, 1, 'c')`,
converting to `('b', 'c', 0, 1)` and back reproduces the batch exactly. -/
theorem c1_conv_conv_transpose {α : Type} (h w c n : Nat) (ax1 ax2 : List Axis)
    (X : Arr4 α) (hp1 : ax1.Perm defaultAxes) (hp2 : ax2.Perm defaultAxes)
    (hX : X.shape = ax1.map (axisDim n h w c)) :
    Conv2DSpace.np_format_as h w c ax1 X (.conv2d h w c ax2) =
      .ok (.arr (npTranspose X (ax2.map (fun x => ax1.indexOf x)))) ∧
    (∀ Y : Arr4 α, Y.shape = defaultAxes.map (axisDim n h w c) →
      Conv2DSpace.np_format_as h w c defaultAxes Y (.conv2d h w c bc01Axes) =
        .ok (.arr (Conv2DSpace.convert_numpy Y defaultAxes bc01Axes)) ∧
      Conv2DSpace.np_format_as h w c bc01Axes
          (Conv2DSpace.convert_numpy Y defaultAxes bc01Axes)
          (.conv2d h w c defaultAxes) =
        .ok (.arr Y)) := by
  constructor
  · by_cases hax : ax1 = ax2
    · subst hax
      show Except.ok (NpBatch.arr (Conv2DSpace.convert_numpy X ax1 ax1)) =
        Except.ok (NpBatch.arr (npTranspose X (ax1.map (fun x => ax1.indexOf x))))
      have hlen : X.shape.length = 4 := by
        rw [hX]
        simpa [defaultAxes] using hp1.length_eq
      rw [Conv2DSpace.convert_numpy, if_pos rfl, axesPerm_map_indexOf ax1 hp1,
        npTranspose_id X hlen]
    · show Except.ok (NpBatch.arr (Conv2DSpace.convert_numpy X ax1 ax2)) =
        Except.ok (NpBatch.arr (npTranspose X (ax2.map (fun x => ax1.indexOf x))))
      rw [Conv2DSpace.convert_numpy, if_neg hax]
  · intro Y hY
    refine ⟨rfl, ?_⟩
    show Except.ok (NpBatch.arr (Conv2DSpace.convert_numpy
        (Conv2DSpace.convert_numpy Y defaultAxes bc01Axes) bc01Axes defaultAxes)) =
      Except.ok (NpBatch.arr Y)
    rw [Conv2DSpace.convert_numpy, if_neg (by decide), Conv2DSpace.convert_numpy,
      if_neg (by decide)]
    refine congrArg (fun A => Except.ok (NpBatch.arr A)) ?_
    refine Arr4.ext ?_ ?_
    · simp only [npTranspose]
      rw [hY]
      rfl
    · simp only [npTranspose]
      funext idx
      congr 1
      funext m
      fin_cases m <;> rfl

/-- A concrete 2×2, one-channel, one-image batch in `('b', 0, 1, 'c')`
layout, used by C1's witness. -/
def c1WitnessBatch : Arr4 Int where
  shape := [1, 2, 2, 1]
  data := fun idx => (10 * idx 1 + idx 2 : Int)

/-- Witness for C1: the 2×2 single-channel batch, converted from
`('b', 0, 1, 'c')` to `('b', 'c', 0, 1)` as one transpose, and converted
back, reproducing the batch exactly. -/
theorem c1_witness :
    Conv2DSpace.np_format_as 2 2 1 defaultAxes c1WitnessBatch
      (.conv2d 2 2 1 bc01Axes) =
      .ok (.arr (npTranspose c1WitnessBatch
        (bc01Axes.map (fun x => defaultAxes.indexOf x)))) ∧
    Conv2DSpace.np_format_as 2 2 1 bc01Axes
      (Conv2DSpace.convert_numpy c1WitnessBatch defaultAxes bc01Axes)
      (.conv2d 2 2 1 defaultAxes) = .ok (.arr c1WitnessBatch) := by
  have h := c1_conv_conv_transpose 2 2 1 1 defaultAxes bc01Axes c1WitnessBatch
    (List.Perm.refl _) (by decide) rfl
  exact ⟨h.1, (h.2 c1WitnessBatch rfl).2⟩
